import Mathlib

/-!
# BMI2 OIS register interface (`bmi2_ois.h`)

A shallow embedding of the macros, constants and data structures of `bmi2_ois.h`
and of the five user-interface operations it declares.

* C values of type `int` (every operand of the macros is promoted to `int`) are
  modelled as `Int`; the bitwise operators are the two's-complement operators on
  `Int`, which do not depend on the width of `int`.
* A conversion to a fixed-width type is an explicit reduction (`uint8_t`, `int8_t`,
  `int16_t`).
* The header only declares the five operations. Their bodies are modelled from the
  specification; every such definition says so in its doc comment.
-/

namespace BMI2OIS

/-! ## C operators on promoted `int` operands -/

/-- C `a & b` on `int`. -/
def c_and (a b : Int) : Int := Int.land a b

/-- C `a | b` on `int`. -/
def c_or (a b : Int) : Int := Int.lor a b

/-- C `~a` on `int`: the full-width complement, `-a - 1`. -/
def c_not (a : Int) : Int := Int.not a

/-- C `a << n` on `int` (defined as `a * 2^n` when that is representable). -/
def c_shl (a : Int) (n : Nat) : Int := a * 2 ^ n

/-- C `a >> n` on `int` (the integral part of `a / 2^n` for non-negative `a`). -/
def c_shr (a : Int) (n : Nat) : Int := a / 2 ^ n

/-- Conversion of an `int` to `uint8_t`: reduction modulo `2^8`. -/
def uint8_t (n : Int) : Int := n % 256

/-- Conversion of an `int` to `int8_t`: two's-complement wrap into `-128..127`. -/
def int8_t (n : Int) : Int := (n + 128) % 256 - 128

/-- Conversion of an `int` to `int16_t`: two's-complement wrap into `-32768..32767`. -/
def int16_t (n : Int) : Int := (n + 32768) % 65536 - 32768

/-- The smallest value of `INT_MAX` the C standard allows (a 16-bit `int`). -/
def INT_MAX_least : Int := 32767

/-! ## Constants of the header -/

/-- Success code, `UINT8_C(0)`. -/
def BMI2_OIS_OK : Int := 0

/-- Error code, `INT8_C(-1)`. -/
def BMI2_OIS_E_NULL_PTR : Int := -1

/-- Error code, `INT8_C(-2)`. -/
def BMI2_OIS_E_COM_FAIL : Int := -2

/-- Error code, `INT8_C(-8)`. -/
def BMI2_OIS_E_INVALID_SENSOR : Int := -8

/-- Mask for the SPI read address, `UINT8_C(0x80)`. -/
def BMI2_OIS_SPI_RD_MASK : Int := 0x80

/-- Mask for the SPI write address, `UINT8_C(0x7F)`. -/
def BMI2_OIS_SPI_WR_MASK : Int := 0x7F

/-- Number of data bytes of one sensor, `UINT8_C(6)`. -/
def BMI2_OIS_ACC_GYR_NUM_BYTES : Nat := 6

/-- Sensor selector of the accelerometer, `UINT8_C(0x01)`. -/
def BMI2_OIS_ACCEL : Nat := 0x01

/-- Sensor selector of the gyroscope, `UINT8_C(0x02)`. -/
def BMI2_OIS_GYRO : Nat := 0x02

/-- Address of the OIS configuration register, `UINT8_C(0x40)`. -/
def BMI2_OIS_CONFIG_ADDR : Nat := 0x40

/-- Address of the first accelerometer data register, `UINT8_C(0x0C)`. -/
def BMI2_OIS_ACC_X_LSB_ADDR : Nat := 0x0C

/-- Address of the first gyroscope data register, `UINT8_C(0x12)`. -/
def BMI2_OIS_GYR_X_LSB_ADDR : Nat := 0x12

/-- Mask of the gyroscope enable, `UINT8_C(0x40)`. -/
def BMI2_OIS_GYR_EN_MASK : Int := 0x40

/-- Mask of the accelerometer enable, `UINT8_C(0x80)`. -/
def BMI2_OIS_ACC_EN_MASK : Int := 0x80

/-- Bit position of the gyroscope enable, `UINT8_C(0x06)`. -/
def BMI2_OIS_GYR_EN_POS : Nat := 0x06

/-- Bit position of the accelerometer enable, `UINT8_C(0x07)`. -/
def BMI2_OIS_ACC_EN_POS : Nat := 0x07

/-! ## Utility macros -/

/-- The `bitname` argument of the utility macros. The header defines a `_MASK` and a
`_POS` constant for exactly these two names. -/
inductive Bitname where
  | BMI2_OIS_ACC_EN
  | BMI2_OIS_GYR_EN
deriving DecidableEq

/-- Token pasting `bitname##_MASK`. -/
def Bitname.MASK : Bitname → Int
  | .BMI2_OIS_ACC_EN => BMI2_OIS_ACC_EN_MASK
  | .BMI2_OIS_GYR_EN => BMI2_OIS_GYR_EN_MASK

/-- Token pasting `bitname##_POS`. -/
def Bitname.POS : Bitname → Nat
  | .BMI2_OIS_ACC_EN => BMI2_OIS_ACC_EN_POS
  | .BMI2_OIS_GYR_EN => BMI2_OIS_GYR_EN_POS

/-- The macro
`((reg_data & ~(bitname##_MASK)) | ((data << bitname##_POS) & bitname##_MASK))`,
evaluated on `int`. -/
def BMI2_OIS_SET_BITS (reg_data : Int) (bitname : Bitname) (data : Int) : Int :=
  c_or (c_and reg_data (c_not bitname.MASK)) (c_and (c_shl data bitname.POS) bitname.MASK)

/-- The macro `((reg_data & (bitname##_MASK)) >> (bitname##_POS))`, evaluated on `int`. -/
def BMI2_OIS_GET_BITS (reg_data : Int) (bitname : Bitname) : Int :=
  c_shr (c_and reg_data bitname.MASK) bitname.POS

/-! ## Data structures -/

/-- The structure `struct bmi2_ois_sens_axes_data`: one `int16_t` value per axis. -/
structure bmi2_ois_sens_axes_data where
  x : Int
  y : Int
  z : Int
deriving DecidableEq

/-- Size in bytes of one `int16_t` axis value. -/
def sizeof_int16_t : Nat := 2

/-- Number of axis fields of `struct bmi2_ois_sens_axes_data` (`x`, `y`, `z`). -/
def bmi2_ois_sens_axes_data.num_axes : Nat := 3

/-- The function pointer type `bmi2_ois_com_fptr_t`:
`int8_t (*)(uint8_t dev_addr, uint8_t reg_addr, uint8_t *data, uint16_t len)`.
The bus behind the callback is an explicit state `β`; the callback receives the buffer
`data`, and returns its status, the buffer afterwards and the new bus state. -/
abbrev bmi2_ois_com_fptr_t (β : Type) : Type :=
  β → Nat → Nat → List Nat → Nat → Int × List Nat × β

/-- The function pointer type `bmi2_ois_delay_fptr_t`, `void (*)(uint32_t period)`. -/
abbrev bmi2_ois_delay_fptr_t (β : Type) : Type := β → Nat → β

/-- The structure `struct bmi2_ois_dev`; the three function pointers act on the bus
state `β`. -/
structure bmi2_ois_dev (β : Type) where
  dev_id : Nat
  ois_read : bmi2_ois_com_fptr_t β
  ois_write : bmi2_ois_com_fptr_t β
  ois_delay_ms : bmi2_ois_delay_fptr_t β
  acc_en : Nat
  gyr_en : Nat
  acc_data : bmi2_ois_sens_axes_data
  gyr_data : bmi2_ois_sens_axes_data

/-- Registers of the accelerometer sample block. -/
def acc_block : List Nat := List.range' BMI2_OIS_ACC_X_LSB_ADDR BMI2_OIS_ACC_GYR_NUM_BYTES

/-- Registers of the gyroscope sample block. -/
def gyr_block : List Nat := List.range' BMI2_OIS_GYR_X_LSB_ADDR BMI2_OIS_ACC_GYR_NUM_BYTES

/-! ## The user-interface operations

`bmi2_ois.h` declares the operations; their bodies are not part of the header. -/

/-- What an operation leaves behind: the returned status `rslt`, its output and the bus
state after the callbacks it invoked. -/
structure ois_result (β α : Type) where
  rslt : Int
  out : α
  bus : β

/-- Modelled from the spec: the body of `bmi2_get_ois_regs` (raw register block read),
missing from the header. An absent context gives the null-pointer code; otherwise the
read callback is invoked once and its status is handed to the caller as it is. The bytes
of the buffer are `uint8_t` values. -/
def bmi2_get_ois_regs {β : Type} (ois_reg_addr : Nat) (data_len : Nat)
    (ois_dev : Option (bmi2_ois_dev β)) (bus : β) : ois_result β (List Nat) :=
  match ois_dev with
  | none => ⟨BMI2_OIS_E_NULL_PTR, [], bus⟩
  | some dev =>
    let r := dev.ois_read bus dev.dev_id ois_reg_addr (List.replicate data_len 0) data_len
    if r.1 = BMI2_OIS_OK then ⟨r.1, (r.2.1.take data_len).map (fun b => b % 256), r.2.2⟩
    else ⟨r.1, [], r.2.2⟩

/-- Modelled from the spec: the body of `bmi2_set_ois_regs` (raw register block write),
missing from the header. An absent context gives the null-pointer code; otherwise the
write callback is invoked once and its status is handed to the caller as it is. -/
def bmi2_set_ois_regs {β : Type} (ois_reg_addr : Nat) (ois_reg_data : List Nat)
    (data_len : Nat) (ois_dev : Option (bmi2_ois_dev β)) (bus : β) : ois_result β Unit :=
  match ois_dev with
  | none => ⟨BMI2_OIS_E_NULL_PTR, (), bus⟩
  | some dev =>
    let r := dev.ois_write bus dev.dev_id ois_reg_addr (ois_reg_data.take data_len) data_len
    ⟨r.1, (), r.2.2⟩

/-- Modelled from the spec: the body of `bmi2_set_ois_config`, missing from the header:
the two enable flags are pushed into the configuration register via mask/shift
(accelerometer flag first, then gyroscope flag), starting from the register value read
from the device. A read that fails ends the operation with the status of the read. -/
def bmi2_set_ois_config {β : Type} (ois_dev : Option (bmi2_ois_dev β)) (bus : β) :
    ois_result β Unit :=
  match ois_dev with
  | none => ⟨BMI2_OIS_E_NULL_PTR, (), bus⟩
  | some dev =>
    let r1 := bmi2_get_ois_regs BMI2_OIS_CONFIG_ADDR 1 (some dev) bus
    if r1.rslt = BMI2_OIS_OK then
      let reg_data : Int := ((r1.out.getD 0 0 : Nat) : Int)
      let reg_data := uint8_t (BMI2_OIS_SET_BITS reg_data .BMI2_OIS_ACC_EN (dev.acc_en : Int))
      let reg_data := uint8_t (BMI2_OIS_SET_BITS reg_data .BMI2_OIS_GYR_EN (dev.gyr_en : Int))
      bmi2_set_ois_regs BMI2_OIS_CONFIG_ADDR [reg_data.toNat] 1 (some dev) r1.bus
    else ⟨r1.rslt, (), r1.bus⟩

/-- Modelled from the spec: the assembly of a pair of little-endian bytes into a signed
16-bit value (`lsb` is the low byte, `msb` the high byte); part of the body of
`bmi2_read_ois_data`, missing from the header. -/
def lsb_msb_to_int16 (lsb msb : Nat) : Int := int16_t ((msb : Int) * 256 + (lsb : Int))

/-- Modelled from the spec: the sample triplet assembled from the six bytes of one sample
block, `x`, `y`, `z` in the order of the registers; part of the body of
`bmi2_read_ois_data`, missing from the header. -/
def axes_of_bytes (reg_data : List Nat) : bmi2_ois_sens_axes_data :=
  { x := lsb_msb_to_int16 (reg_data.getD 0 0) (reg_data.getD 1 0)
    y := lsb_msb_to_int16 (reg_data.getD 2 0) (reg_data.getD 3 0)
    z := lsb_msb_to_int16 (reg_data.getD 4 0) (reg_data.getD 5 0) }

/-- Storing a triplet in a `struct bmi2_ois_sens_axes_data`: each field is an `int16_t`,
so each value is converted to `int16_t`. -/
def store_axes (d : bmi2_ois_sens_axes_data) : bmi2_ois_sens_axes_data :=
  { x := int16_t d.x, y := int16_t d.y, z := int16_t d.z }

/-- Modelled from the spec: the loop of `bmi2_read_ois_data` over the selected sensors,
missing from the header. `corr` is the cross-axis correction, whose formula neither the
header nor the specification gives; it takes the caller-provided constant
`gyr_cross_sens_zx` and the assembled gyroscope triplet, and its result is stored in the
`int16_t` fields of the record. `both` says that both sensors are requested together. The
loop stops at the first status that is not success. -/
def read_ois_sensors {β : Type}
    (corr : Int → bmi2_ois_sens_axes_data → bmi2_ois_sens_axes_data) (both : Bool)
    (gyr_cross_sens_zx : Int) :
    List Nat → bmi2_ois_dev β → β → ois_result β (Option (bmi2_ois_dev β))
  | [], dev, bus => ⟨BMI2_OIS_OK, some dev, bus⟩
  | s :: rest, dev, bus =>
    if s = BMI2_OIS_ACCEL then
      let r := bmi2_get_ois_regs BMI2_OIS_ACC_X_LSB_ADDR BMI2_OIS_ACC_GYR_NUM_BYTES (some dev) bus
      if r.rslt = BMI2_OIS_OK then
        read_ois_sensors corr both gyr_cross_sens_zx rest
          { dev with acc_data := axes_of_bytes r.out } r.bus
      else ⟨r.rslt, some dev, r.bus⟩
    else if s = BMI2_OIS_GYRO then
      let r := bmi2_get_ois_regs BMI2_OIS_GYR_X_LSB_ADDR BMI2_OIS_ACC_GYR_NUM_BYTES (some dev) bus
      if r.rslt = BMI2_OIS_OK then
        read_ois_sensors corr both gyr_cross_sens_zx rest
          { dev with gyr_data :=
              if both then store_axes (corr gyr_cross_sens_zx (axes_of_bytes r.out))
              else axes_of_bytes r.out }
          r.bus
      else ⟨r.rslt, some dev, r.bus⟩
    else ⟨BMI2_OIS_E_INVALID_SENSOR, some dev, bus⟩

/-- Modelled from the spec: the body of `bmi2_read_ois_data`, missing from the header:
one or both sample triplets are read from their register blocks and assembled; the
cross-axis correction `corr` is applied to the gyroscope triplet when both sensors are
requested together. -/
def bmi2_read_ois_data {β : Type}
    (corr : Int → bmi2_ois_sens_axes_data → bmi2_ois_sens_axes_data)
    (sens_sel : List Nat) (n_sens : Nat) (ois_dev : Option (bmi2_ois_dev β))
    (gyr_cross_sens_zx : Int) (bus : β) : ois_result β (Option (bmi2_ois_dev β)) :=
  match ois_dev with
  | none => ⟨BMI2_OIS_E_NULL_PTR, none, bus⟩
  | some dev =>
    let sel := sens_sel.take n_sens
    let both := decide (BMI2_OIS_ACCEL ∈ sel) && decide (BMI2_OIS_GYRO ∈ sel)
    read_ois_sensors corr both gyr_cross_sens_zx sel dev bus

/-- The device `dev` on a bus that also keeps a log: each read or write callback does
what the callback of `dev` does and appends the status it returns to the log. The log is
written by the callbacks alone, so it records which callbacks an operation invoked, in
order, and what each of them answered. -/
def logged {β : Type} (dev : bmi2_ois_dev β) : bmi2_ois_dev (β × List Int) :=
  { dev_id := dev.dev_id
    ois_read := fun b dev_addr reg_addr data len =>
      ((dev.ois_read b.1 dev_addr reg_addr data len).1,
        (dev.ois_read b.1 dev_addr reg_addr data len).2.1,
        ((dev.ois_read b.1 dev_addr reg_addr data len).2.2,
          b.2 ++ [(dev.ois_read b.1 dev_addr reg_addr data len).1]))
    ois_write := fun b dev_addr reg_addr data len =>
      ((dev.ois_write b.1 dev_addr reg_addr data len).1,
        (dev.ois_write b.1 dev_addr reg_addr data len).2.1,
        ((dev.ois_write b.1 dev_addr reg_addr data len).2.2,
          b.2 ++ [(dev.ois_write b.1 dev_addr reg_addr data len).1]))
    ois_delay_ms := fun b period => (dev.ois_delay_ms b.1 period, b.2)
    acc_en := dev.acc_en
    gyr_en := dev.gyr_en
    acc_data := dev.acc_data
    gyr_data := dev.gyr_data }

/-- A device context for concrete evaluation. The bus state counts the callback
invocations; every read answers with status `st_read` and the first `len` bytes of
`bytes`, every write answers with status `st_write`. -/
def sample_dev (bytes : List Nat) (st_read st_write : Int) : bmi2_ois_dev Nat :=
  { dev_id := 0
    ois_read := fun b _ _ _ len => (st_read, bytes.take len, b + 1)
    ois_write := fun b _ _ data _ => (st_write, data, b + 1)
    ois_delay_ms := fun b _ => b
    acc_en := 1
    gyr_en := 1
    acc_data := ⟨0, 0, 0⟩
    gyr_data := ⟨0, 0, 0⟩ }

/-! ## Lemmas on the operators -/

theorem ldiff_byte (r m : Nat) (hr : r < 2 ^ 8) (hm : m < 2 ^ 8) :
    Nat.ldiff r m = r &&& (2 ^ 8 - (m + 1)) := by
  apply Nat.eq_of_testBit_eq
  intro i
  rw [Nat.testBit_ldiff, Nat.testBit_land, Nat.testBit_two_pow_sub_succ hm]
  by_cases h : i < 8
  · simp [h]
  · have hi : r.testBit i = false := by
      apply Nat.testBit_lt_two_pow
      calc r < 2 ^ 8 := hr
        _ ≤ 2 ^ i := Nat.pow_le_pow_right (by decide) (by omega)
    simp [hi]

theorem c_and_nat (a b : Nat) : c_and (a : Int) (b : Int) = ((a &&& b : Nat) : Int) := rfl

theorem c_or_nat (a b : Nat) : c_or (a : Int) (b : Int) = ((a ||| b : Nat) : Int) := rfl

theorem c_and_not_nat (r m : Nat) (hr : r ≤ 255) (hm : m ≤ 255) :
    c_and (r : Int) (c_not (m : Int)) = ((r &&& (255 - m) : Nat) : Int) := by
  have h : Nat.ldiff r m = r &&& (2 ^ 8 - (m + 1)) :=
    ldiff_byte r m (by omega) (by omega)
  have e : 2 ^ 8 - (m + 1) = 255 - m := by omega
  rw [e] at h
  show ((Nat.ldiff r m : Nat) : Int) = _
  rw [h]

theorem c_shl_nat (d n : Nat) : c_shl (d : Int) n = ((d * 2 ^ n : Nat) : Int) := by
  unfold c_shl
  push_cast
  rfl

theorem c_shr_nat (a n : Nat) : c_shr (a : Int) n = ((a / 2 ^ n : Nat) : Int) := by
  unfold c_shr
  push_cast
  rfl

theorem and127 : ∀ r : Nat, r < 256 → r &&& 127 = r % 128 := by decide!

theorem and191 : ∀ r : Nat, r < 256 → r &&& 191 = r / 128 * 128 + r % 64 := by decide!

theorem and128 : ∀ r : Nat, r < 256 → r &&& 128 = r / 128 * 128 := by decide!

theorem and64 : ∀ r : Nat, r < 256 → r &&& 64 = r / 64 % 2 * 64 := by decide!

theorem shl7_and : ∀ d : Nat, d < 256 → (d * 2 ^ 7) &&& 128 = 128 * (d % 2) := by decide!

theorem shl6_and : ∀ d : Nat, d < 256 → (d * 2 ^ 6) &&& 64 = 64 * (d % 2) := by decide!

theorem or128 : ∀ a : Nat, a < 128 → ∀ b : Nat, b < 2 → a ||| (128 * b) = a + 128 * b := by
  decide!

theorem or64 : ∀ r : Nat, r < 256 → ∀ b : Nat, b < 2 →
    (r / 128 * 128 + r % 64) ||| (64 * b) = r / 128 * 128 + r % 64 + 64 * b := by
  decide!

/-- Arithmetic form of the accelerometer-enable update. -/
theorem set_acc_eq (r d : Nat) (hr : r ≤ 255) (hd : d ≤ 255) :
    BMI2_OIS_SET_BITS r .BMI2_OIS_ACC_EN d = ((r % 128 + 128 * (d % 2) : Nat) : Int) := by
  have h1 := c_and_not_nat r 128 hr (by decide)
  have h2 := c_shl_nat d 7
  have h3 := and127 r (by omega)
  have h4 := shl7_and d (by omega)
  have h5 := or128 (r % 128) (by omega) (d % 2) (by omega)
  show c_or (c_and (r : Int) (c_not ((128 : Nat) : Int)))
    (c_and (c_shl (d : Int) 7) ((128 : Nat) : Int)) = _
  rw [h1, h2, c_and_nat, c_or_nat, show (255 - 128 : Nat) = 127 from rfl, h3, h4, h5]

/-- Arithmetic form of the gyroscope-enable update. -/
theorem set_gyr_eq (r d : Nat) (hr : r ≤ 255) (hd : d ≤ 255) :
    BMI2_OIS_SET_BITS r .BMI2_OIS_GYR_EN d
      = ((r / 128 * 128 + r % 64 + 64 * (d % 2) : Nat) : Int) := by
  have h1 := c_and_not_nat r 64 hr (by decide)
  have h2 := c_shl_nat d 6
  have h3 := and191 r (by omega)
  have h4 := shl6_and d (by omega)
  have h5 := or64 r (by omega) (d % 2) (by omega)
  show c_or (c_and (r : Int) (c_not ((64 : Nat) : Int)))
    (c_and (c_shl (d : Int) 6) ((64 : Nat) : Int)) = _
  rw [h1, h2, c_and_nat, c_or_nat, show (255 - 64 : Nat) = 191 from rfl, h3, h4, h5]

/-- Arithmetic form of the accelerometer-enable read. -/
theorem get_acc_eq (r : Nat) (hr : r ≤ 255) :
    BMI2_OIS_GET_BITS r .BMI2_OIS_ACC_EN = ((r / 128 : Nat) : Int) := by
  have h3 := and128 r (by omega)
  show c_shr (c_and (r : Int) ((128 : Nat) : Int)) 7 = _
  rw [c_and_nat, c_shr_nat, h3]
  norm_num

/-- Arithmetic form of the gyroscope-enable read. -/
theorem get_gyr_eq (r : Nat) (hr : r ≤ 255) :
    BMI2_OIS_GET_BITS r .BMI2_OIS_GYR_EN = ((r / 64 % 2 : Nat) : Int) := by
  have h3 := and64 r (by omega)
  show c_shr (c_and (r : Int) ((64 : Nat) : Int)) 6 = _
  rw [c_and_nat, c_shr_nat, h3]
  norm_num

theorem or_mask128 : ∀ r : Nat, r < 256 → r ||| 128 = r % 128 + 128 := by decide!

theorem or_mask64 : ∀ r : Nat, r < 256 → r ||| 64 = r / 128 * 128 + r % 64 + 64 := by decide!

theorem and63 : ∀ r : Nat, r < 256 → r &&& 63 = r % 64 := by decide!

theorem testBit7 : ∀ r : Nat, r < 256 → (if r.testBit 7 then 1 else 0) = r / 128 := by decide!

theorem testBit6 : ∀ r : Nat, r < 256 → (if r.testBit 6 then 1 else 0) = r / 64 % 2 := by
  decide!

theorem testBit7_or : ∀ r : Nat, r < 256 → (r ||| 128).testBit 7 = true := by decide!

theorem testBit7_and : ∀ r : Nat, r < 256 → (r &&& 127).testBit 7 = false := by decide!

theorem or_and_wr : ∀ r : Nat, r < 256 → (r ||| 128) &&& 127 = r &&& 127 := by decide!

theorem frame_acc_low : ∀ r : Nat, r < 256 → ∀ b : Nat, b < 2 → ∀ i : Nat, i < 8 → i ≠ 7 →
    (r % 128 + 128 * b).testBit i = r.testBit i := by decide!

theorem frame_gyr_low : ∀ r : Nat, r < 256 → ∀ b : Nat, b < 2 → ∀ i : Nat, i < 8 → i ≠ 6 →
    (r / 128 * 128 + r % 64 + 64 * b).testBit i = r.testBit i := by decide!

theorem testBit_high (n i : Nat) (hn : n < 256) (hi : 8 ≤ i) : n.testBit i = false := by
  apply Nat.testBit_lt_two_pow
  calc n < 2 ^ 8 := hn
    _ ≤ 2 ^ i := Nat.pow_le_pow_right (by decide) hi

theorem frame_acc (r d i : Nat) (hr : r ≤ 255) (hi : i ≠ 7) :
    (r % 128 + 128 * (d % 2)).testBit i = r.testBit i := by
  by_cases h : i < 8
  · exact frame_acc_low r (by omega) (d % 2) (by omega) i h hi
  · rw [testBit_high _ i (by omega) (by omega), testBit_high r i (by omega) (by omega)]

theorem frame_gyr (r d i : Nat) (hr : r ≤ 255) (hi : i ≠ 6) :
    (r / 128 * 128 + r % 64 + 64 * (d % 2)).testBit i = r.testBit i := by
  by_cases h : i < 8
  · exact frame_gyr_low r (by omega) (d % 2) (by omega) i h hi
  · rw [testBit_high _ i (by omega) (by omega), testBit_high r i (by omega) (by omega)]

/-! ## The configuration register: macros and constants -/

/-- C1: writing the two enable flags (each 0 or 1) into any 8-bit register value with
`BMI2_OIS_SET_BITS`, accelerometer first and gyroscope second, and reading them back with
`BMI2_OIS_GET_BITS` yields exactly the two flags. -/
theorem C1_config_round_trip (r acc_en gyr_en : Nat) (hr : r ≤ 255) (ha : acc_en ≤ 1)
    (hg : gyr_en ≤ 1) :
    BMI2_OIS_GET_BITS
        (BMI2_OIS_SET_BITS (BMI2_OIS_SET_BITS r .BMI2_OIS_ACC_EN acc_en) .BMI2_OIS_GYR_EN gyr_en)
        .BMI2_OIS_ACC_EN = acc_en ∧
    BMI2_OIS_GET_BITS
        (BMI2_OIS_SET_BITS (BMI2_OIS_SET_BITS r .BMI2_OIS_ACC_EN acc_en) .BMI2_OIS_GYR_EN gyr_en)
        .BMI2_OIS_GYR_EN = gyr_en := by
  rw [set_acc_eq r acc_en hr (by omega), set_gyr_eq _ gyr_en (by omega) (by omega),
    get_acc_eq _ (by omega), get_gyr_eq _ (by omega)]
  constructor
  · congr 1
    omega
  · congr 1
    omega

/-- Witness of C1 at the register value 0x3F with both flags set. -/
theorem C1_config_round_trip_witness :
    ((0x3F : Nat) ≤ 255 ∧ (1 : Nat) ≤ 1) ∧
    (BMI2_OIS_GET_BITS
        (BMI2_OIS_SET_BITS (BMI2_OIS_SET_BITS ((0x3F : Nat) : Int) .BMI2_OIS_ACC_EN ((1 : Nat) : Int))
          .BMI2_OIS_GYR_EN ((1 : Nat) : Int))
        .BMI2_OIS_ACC_EN = ((1 : Nat) : Int) ∧
      BMI2_OIS_GET_BITS
        (BMI2_OIS_SET_BITS (BMI2_OIS_SET_BITS ((0x3F : Nat) : Int) .BMI2_OIS_ACC_EN ((1 : Nat) : Int))
          .BMI2_OIS_GYR_EN ((1 : Nat) : Int))
        .BMI2_OIS_GYR_EN = ((1 : Nat) : Int)) :=
  ⟨by decide, C1_config_round_trip 0x3F 1 1 (by decide) (by decide) (by decide)⟩

/-- C2: the accelerometer enable is bit 7 and the gyroscope enable is bit 6 of the
configuration register: each mask is 1 shifted left by its position, setting a flag to 1
is `r | mask`, setting it to 0 is `r & ~mask` within 8 bits, and `BMI2_OIS_GET_BITS`
returns bit 7 (accelerometer) or bit 6 (gyroscope) of the register value. -/
theorem C2_bit_placement (r : Nat) (hr : r ≤ 255) :
    (BMI2_OIS_ACC_EN_MASK = c_shl 1 BMI2_OIS_ACC_EN_POS ∧ BMI2_OIS_ACC_EN_MASK = 0x80 ∧
      BMI2_OIS_ACC_EN_POS = 7) ∧
    (BMI2_OIS_GYR_EN_MASK = c_shl 1 BMI2_OIS_GYR_EN_POS ∧ BMI2_OIS_GYR_EN_MASK = 0x40 ∧
      BMI2_OIS_GYR_EN_POS = 6) ∧
    BMI2_OIS_SET_BITS r .BMI2_OIS_ACC_EN 1 = c_or r 0x80 ∧
    BMI2_OIS_SET_BITS r .BMI2_OIS_ACC_EN 0 = c_and r 0x7F ∧
    BMI2_OIS_SET_BITS r .BMI2_OIS_GYR_EN 1 = c_or r 0x40 ∧
    BMI2_OIS_SET_BITS r .BMI2_OIS_GYR_EN 0 = c_and r 0xBF ∧
    BMI2_OIS_GET_BITS r .BMI2_OIS_ACC_EN = (if Int.testBit r 7 then 1 else 0) ∧
    BMI2_OIS_GET_BITS r .BMI2_OIS_GYR_EN = (if Int.testBit r 6 then 1 else 0) := by
  have hlt : r < 256 := by omega
  refine ⟨⟨by decide, by decide, by decide⟩, ⟨by decide, by decide, by decide⟩, ?_, ?_, ?_, ?_,
    ?_, ?_⟩
  · have h := set_acc_eq r 1 hr (by decide)
    rw [show ((1 : Nat) : Int) = 1 from rfl] at h
    rw [h, show (0x80 : Int) = ((128 : Nat) : Int) from rfl, c_or_nat, or_mask128 r hlt]
  · have h := set_acc_eq r 0 hr (by decide)
    rw [show ((0 : Nat) : Int) = 0 from rfl] at h
    rw [h, show (0x7F : Int) = ((127 : Nat) : Int) from rfl, c_and_nat, and127 r hlt]
    rfl
  · have h := set_gyr_eq r 1 hr (by decide)
    rw [show ((1 : Nat) : Int) = 1 from rfl] at h
    rw [h, show (0x40 : Int) = ((64 : Nat) : Int) from rfl, c_or_nat, or_mask64 r hlt]
  · have h := set_gyr_eq r 0 hr (by decide)
    rw [show ((0 : Nat) : Int) = 0 from rfl] at h
    rw [h, show (0xBF : Int) = ((191 : Nat) : Int) from rfl, c_and_nat, and191 r hlt]
    rfl
  · rw [get_acc_eq r hr, ← testBit7 r hlt]
    show _ = (if Nat.testBit r 7 then 1 else 0)
    split <;> rfl
  · rw [get_gyr_eq r hr, ← testBit6 r hlt]
    show _ = (if Nat.testBit r 6 then 1 else 0)
    split <;> rfl

/-- Witness of C2 at the register value 0xA5. -/
theorem C2_bit_placement_witness :
    (0xA5 : Nat) ≤ 255 ∧
    BMI2_OIS_SET_BITS ((0xA5 : Nat) : Int) .BMI2_OIS_GYR_EN 1 = c_or ((0xA5 : Nat) : Int) 0x40 ∧
    BMI2_OIS_GET_BITS ((0xA5 : Nat) : Int) .BMI2_OIS_ACC_EN
      = (if Int.testBit ((0xA5 : Nat) : Int) 7 then 1 else 0) :=
  ⟨by decide, (C2_bit_placement 0xA5 (by decide)).2.2.2.2.1,
    (C2_bit_placement 0xA5 (by decide)).2.2.2.2.2.2.1⟩

/-- C3: the success code is zero; the three error codes are strictly negative, pairwise
distinct, distinct from the success code, and within -128..127, so the conversion to the
`int8_t` return type keeps every code and no two codes collide after it. -/
theorem C3_flat_error_model :
    BMI2_OIS_OK = 0 ∧
    (BMI2_OIS_E_NULL_PTR < 0 ∧ BMI2_OIS_E_COM_FAIL < 0 ∧ BMI2_OIS_E_INVALID_SENSOR < 0) ∧
    (BMI2_OIS_E_NULL_PTR ≠ BMI2_OIS_E_COM_FAIL ∧
      BMI2_OIS_E_NULL_PTR ≠ BMI2_OIS_E_INVALID_SENSOR ∧
      BMI2_OIS_E_COM_FAIL ≠ BMI2_OIS_E_INVALID_SENSOR) ∧
    (BMI2_OIS_E_NULL_PTR ≠ BMI2_OIS_OK ∧ BMI2_OIS_E_COM_FAIL ≠ BMI2_OIS_OK ∧
      BMI2_OIS_E_INVALID_SENSOR ≠ BMI2_OIS_OK) ∧
    (∀ c ∈ [BMI2_OIS_OK, BMI2_OIS_E_NULL_PTR, BMI2_OIS_E_COM_FAIL, BMI2_OIS_E_INVALID_SENSOR],
      -128 ≤ c ∧ c ≤ 127 ∧ int8_t c = c) ∧
    ([BMI2_OIS_OK, BMI2_OIS_E_NULL_PTR, BMI2_OIS_E_COM_FAIL, BMI2_OIS_E_INVALID_SENSOR].map
      int8_t).Nodup := by
  decide

/-- C6: each sample block is 6 bytes (three axes of two bytes), the gyroscope block starts
where the accelerometer block ends (0x12 = 0x0C + 6), the two blocks are the address
ranges 0x0C..0x11 and 0x12..0x17, disjoint and contiguous, and neither contains the
configuration register address 0x40. -/
theorem C6_sample_blocks :
    BMI2_OIS_ACC_GYR_NUM_BYTES = 6 ∧
    BMI2_OIS_ACC_GYR_NUM_BYTES = bmi2_ois_sens_axes_data.num_axes * sizeof_int16_t ∧
    BMI2_OIS_GYR_X_LSB_ADDR = BMI2_OIS_ACC_X_LSB_ADDR + BMI2_OIS_ACC_GYR_NUM_BYTES ∧
    BMI2_OIS_ACC_X_LSB_ADDR = 0x0C ∧ BMI2_OIS_GYR_X_LSB_ADDR = 0x12 ∧
    acc_block = [0x0C, 0x0D, 0x0E, 0x0F, 0x10, 0x11] ∧
    gyr_block = [0x12, 0x13, 0x14, 0x15, 0x16, 0x17] ∧
    (∀ a ∈ acc_block, a ∉ gyr_block) ∧
    acc_block ++ gyr_block
      = List.range' BMI2_OIS_ACC_X_LSB_ADDR (2 * BMI2_OIS_ACC_GYR_NUM_BYTES) ∧
    BMI2_OIS_CONFIG_ADDR = 0x40 ∧
    BMI2_OIS_CONFIG_ADDR ∉ acc_block ∧ BMI2_OIS_CONFIG_ADDR ∉ gyr_block := by
  decide

/-- C7: for 8-bit `r` and `d`, `BMI2_OIS_SET_BITS` on one enable field agrees with `r` on
every bit outside the mask of that field; hence it changes neither the value read back
for the other flag nor the six low bits, and the two flag writes commute. -/
theorem C7_field_independence (r d e : Nat) (hr : r ≤ 255) (hd : d ≤ 255) (he : e ≤ 255) :
    (∀ i : Nat, i ≠ BMI2_OIS_ACC_EN_POS →
      Int.testBit (BMI2_OIS_SET_BITS r .BMI2_OIS_ACC_EN d) i = Int.testBit r i) ∧
    (∀ i : Nat, i ≠ BMI2_OIS_GYR_EN_POS →
      Int.testBit (BMI2_OIS_SET_BITS r .BMI2_OIS_GYR_EN d) i = Int.testBit r i) ∧
    c_and (BMI2_OIS_SET_BITS r .BMI2_OIS_ACC_EN d) (c_not BMI2_OIS_ACC_EN_MASK)
      = c_and r (c_not BMI2_OIS_ACC_EN_MASK) ∧
    c_and (BMI2_OIS_SET_BITS r .BMI2_OIS_GYR_EN d) (c_not BMI2_OIS_GYR_EN_MASK)
      = c_and r (c_not BMI2_OIS_GYR_EN_MASK) ∧
    BMI2_OIS_GET_BITS (BMI2_OIS_SET_BITS r .BMI2_OIS_ACC_EN d) .BMI2_OIS_GYR_EN
      = BMI2_OIS_GET_BITS r .BMI2_OIS_GYR_EN ∧
    BMI2_OIS_GET_BITS (BMI2_OIS_SET_BITS r .BMI2_OIS_GYR_EN d) .BMI2_OIS_ACC_EN
      = BMI2_OIS_GET_BITS r .BMI2_OIS_ACC_EN ∧
    c_and (BMI2_OIS_SET_BITS r .BMI2_OIS_ACC_EN d) 0x3F = c_and r 0x3F ∧
    c_and (BMI2_OIS_SET_BITS r .BMI2_OIS_GYR_EN d) 0x3F = c_and r 0x3F ∧
    BMI2_OIS_SET_BITS (BMI2_OIS_SET_BITS r .BMI2_OIS_ACC_EN d) .BMI2_OIS_GYR_EN e
      = BMI2_OIS_SET_BITS (BMI2_OIS_SET_BITS r .BMI2_OIS_GYR_EN e) .BMI2_OIS_ACC_EN d := by
  have hlt : r < 256 := by omega
  have ha := set_acc_eq r d hr hd
  have hg := set_gyr_eq r d hr hd
  refine ⟨?_, ?_, ?_, ?_, ?_, ?_, ?_, ?_, ?_⟩
  · intro i hi
    rw [ha]
    exact frame_acc r d i hr hi
  · intro i hi
    rw [hg]
    exact frame_gyr r d i hr hi
  · rw [ha, show BMI2_OIS_ACC_EN_MASK = ((128 : Nat) : Int) from rfl,
      c_and_not_nat _ 128 (by omega) (by decide), c_and_not_nat r 128 hr (by decide),
      show (255 - 128 : Nat) = 127 from rfl, and127 _ (by omega), and127 r hlt]
    congr 1
    omega
  · rw [hg, show BMI2_OIS_GYR_EN_MASK = ((64 : Nat) : Int) from rfl,
      c_and_not_nat _ 64 (by omega) (by decide), c_and_not_nat r 64 hr (by decide),
      show (255 - 64 : Nat) = 191 from rfl, and191 _ (by omega), and191 r hlt]
    congr 1
    omega
  · rw [ha, get_gyr_eq _ (by omega), get_gyr_eq r hr]
    congr 1
    omega
  · rw [hg, get_acc_eq _ (by omega), get_acc_eq r hr]
    congr 1
    omega
  · rw [ha, show (0x3F : Int) = ((63 : Nat) : Int) from rfl, c_and_nat, c_and_nat,
      and63 _ (by omega), and63 r hlt]
    congr 1
    omega
  · rw [hg, show (0x3F : Int) = ((63 : Nat) : Int) from rfl, c_and_nat, c_and_nat,
      and63 _ (by omega), and63 r hlt]
    congr 1
    omega
  · rw [ha, set_gyr_eq _ e (by omega) he, set_gyr_eq r e hr he, set_acc_eq _ d (by omega) hd]
    congr 1
    omega

/-- Witness of C7 at the register value 0x3F, writing 1 and then 0. -/
theorem C7_field_independence_witness :
    (0x3F : Nat) ≤ 255 ∧
    BMI2_OIS_SET_BITS (BMI2_OIS_SET_BITS ((0x3F : Nat) : Int) .BMI2_OIS_ACC_EN ((1 : Nat) : Int))
        .BMI2_OIS_GYR_EN ((0 : Nat) : Int)
      = BMI2_OIS_SET_BITS
          (BMI2_OIS_SET_BITS ((0x3F : Nat) : Int) .BMI2_OIS_GYR_EN ((0 : Nat) : Int))
          .BMI2_OIS_ACC_EN ((1 : Nat) : Int) :=
  ⟨by decide,
    (C7_field_independence 0x3F 1 0 (by decide) (by decide) (by decide)).2.2.2.2.2.2.2.2⟩

/-- C8: only the least significant bit of an 8-bit flag value is written: reading the
field back after `BMI2_OIS_SET_BITS` gives `d mod 2`, which is 0 or 1, does not depend on
the register value, and is 0 for the non-zero even flag value 2. -/
theorem C8_only_lsb_written (r r' d : Nat) (bitname : Bitname) (hr : r ≤ 255)
    (hr' : r' ≤ 255) (hd : d ≤ 255) :
    BMI2_OIS_GET_BITS (BMI2_OIS_SET_BITS r bitname d) bitname = ((d % 2 : Nat) : Int) ∧
    (BMI2_OIS_GET_BITS (BMI2_OIS_SET_BITS r bitname d) bitname = 0 ∨
      BMI2_OIS_GET_BITS (BMI2_OIS_SET_BITS r bitname d) bitname = 1) ∧
    BMI2_OIS_GET_BITS (BMI2_OIS_SET_BITS r bitname d) bitname
      = BMI2_OIS_GET_BITS (BMI2_OIS_SET_BITS r' bitname d) bitname ∧
    BMI2_OIS_GET_BITS (BMI2_OIS_SET_BITS r bitname ((2 : Nat) : Int)) bitname = 0 := by
  have key : ∀ (q c : Nat), q ≤ 255 → c ≤ 255 →
      BMI2_OIS_GET_BITS (BMI2_OIS_SET_BITS q bitname c) bitname = ((c % 2 : Nat) : Int) := by
    intro q c hq hc
    cases bitname
    · rw [set_acc_eq q c hq hc, get_acc_eq _ (by omega)]
      congr 1
      omega
    · rw [set_gyr_eq q c hq hc, get_gyr_eq _ (by omega)]
      congr 1
      omega
  refine ⟨key r d hr hd, ?_, ?_, ?_⟩
  · rw [key r d hr hd]
    rcases Nat.mod_two_eq_zero_or_one d with h | h
    · left
      rw [h]
      rfl
    · right
      rw [h]
      rfl
  · rw [key r d hr hd, key r' d hr' hd]
  · rw [key r 2 hr (by decide)]
    rfl

/-- Witness of C8: the flag value 2 written into 0xFF reads back as 0. -/
theorem C8_only_lsb_written_witness :
    (0xFF : Nat) ≤ 255 ∧
    BMI2_OIS_GET_BITS
      (BMI2_OIS_SET_BITS ((0xFF : Nat) : Int) .BMI2_OIS_ACC_EN ((2 : Nat) : Int))
      .BMI2_OIS_ACC_EN = 0 :=
  ⟨by decide,
    (C8_only_lsb_written 0xFF 0 2 .BMI2_OIS_ACC_EN (by decide) (by decide) (by decide)).2.2.2⟩

/-- C9: under integer promotion, for 8-bit `r` and `d` and both fields: `~mask` is the
full-width (negative) complement, `d << pos` does not overflow even a 16-bit `int`, the
value of `BMI2_OIS_SET_BITS` lies in 0..255 so the conversion to `uint8_t` leaves it
unchanged, and `BMI2_OIS_GET_BITS` yields a value in 0..255. -/
theorem C9_no_truncation (r d : Nat) (bitname : Bitname) (hr : r ≤ 255) (hd : d ≤ 255) :
    (c_not bitname.MASK = -bitname.MASK - 1 ∧ c_not bitname.MASK < 0) ∧
    (0 ≤ c_shl d bitname.POS ∧ c_shl d bitname.POS ≤ INT_MAX_least) ∧
    (0 ≤ BMI2_OIS_SET_BITS r bitname d ∧ BMI2_OIS_SET_BITS r bitname d ≤ 255 ∧
      uint8_t (BMI2_OIS_SET_BITS r bitname d) = BMI2_OIS_SET_BITS r bitname d) ∧
    (0 ≤ BMI2_OIS_GET_BITS r bitname ∧ BMI2_OIS_GET_BITS r bitname ≤ 255 ∧
      uint8_t (BMI2_OIS_GET_BITS r bitname) = BMI2_OIS_GET_BITS r bitname) := by
  have hd' : (d : Int) ≤ 255 := by exact_mod_cast hd
  have hd0 : (0 : Int) ≤ (d : Int) := Int.ofNat_nonneg d
  cases bitname
  · refine ⟨by decide, ?_, ?_, ?_⟩
    · show 0 ≤ (d : Int) * 2 ^ 7 ∧ (d : Int) * 2 ^ 7 ≤ 32767
      constructor <;> omega
    · rw [set_acc_eq r d hr hd]
      unfold uint8_t
      omega
    · rw [get_acc_eq r hr]
      unfold uint8_t
      omega
  · refine ⟨by decide, ?_, ?_, ?_⟩
    · show 0 ≤ (d : Int) * 2 ^ 6 ∧ (d : Int) * 2 ^ 6 ≤ 32767
      constructor <;> omega
    · rw [set_gyr_eq r d hr hd]
      unfold uint8_t
      omega
    · rw [get_gyr_eq r hr]
      unfold uint8_t
      omega

/-- Witness of C9 at register value 0xFF and data value 0xFF. -/
theorem C9_no_truncation_witness :
    (0xFF : Nat) ≤ 255 ∧
    uint8_t (BMI2_OIS_SET_BITS ((0xFF : Nat) : Int) .BMI2_OIS_GYR_EN ((0xFF : Nat) : Int))
      = BMI2_OIS_SET_BITS ((0xFF : Nat) : Int) .BMI2_OIS_GYR_EN ((0xFF : Nat) : Int) :=
  ⟨by decide, (C9_no_truncation 0xFF 0xFF .BMI2_OIS_GYR_EN (by decide) (by decide)).2.2.1.2.2⟩

/-- C10: the SPI read and write masks are complements within 8 bits; for every 8-bit
address, or-ing the read mask sets bit 7, and-ing the write mask clears it, and the write
mask undoes the read mask; every register address of the header (the configuration
register and the two sample blocks) is below 0x80, is left unchanged by the write mask and
is recovered from its read-flagged form. -/
theorem C10_spi_masks (a : Nat) (ha : a ≤ 255) :
    (c_and BMI2_OIS_SPI_RD_MASK BMI2_OIS_SPI_WR_MASK = 0 ∧
      c_or BMI2_OIS_SPI_RD_MASK BMI2_OIS_SPI_WR_MASK = 0xFF ∧
      uint8_t (c_not BMI2_OIS_SPI_RD_MASK) = BMI2_OIS_SPI_WR_MASK ∧
      uint8_t (c_not BMI2_OIS_SPI_WR_MASK) = BMI2_OIS_SPI_RD_MASK) ∧
    (Int.testBit (c_or a BMI2_OIS_SPI_RD_MASK) 7 = true ∧
      Int.testBit (c_and a BMI2_OIS_SPI_WR_MASK) 7 = false ∧
      c_and (c_or a BMI2_OIS_SPI_RD_MASK) BMI2_OIS_SPI_WR_MASK
        = c_and a BMI2_OIS_SPI_WR_MASK) ∧
    (∀ addr ∈ BMI2_OIS_CONFIG_ADDR :: (acc_block ++ gyr_block),
      addr < 0x80 ∧
      c_and (addr : Int) BMI2_OIS_SPI_WR_MASK = (addr : Int) ∧
      c_and (c_or (addr : Int) BMI2_OIS_SPI_RD_MASK) BMI2_OIS_SPI_WR_MASK = (addr : Int)) := by
  have hlt : a < 256 := by omega
  refine ⟨by decide, ⟨?_, ?_, ?_⟩, by decide⟩
  · exact testBit7_or a hlt
  · exact testBit7_and a hlt
  · show ((((a ||| 128) &&& 127 : Nat)) : Int) = ((a &&& 127 : Nat) : Int)
    rw [or_and_wr a hlt]

/-- Witness of C10 at the address of the configuration register. -/
theorem C10_spi_masks_witness :
    BMI2_OIS_CONFIG_ADDR ≤ 255 ∧
    c_and (c_or (BMI2_OIS_CONFIG_ADDR : Int) BMI2_OIS_SPI_RD_MASK) BMI2_OIS_SPI_WR_MASK
      = c_and (BMI2_OIS_CONFIG_ADDR : Int) BMI2_OIS_SPI_WR_MASK :=
  ⟨by decide, (C10_spi_masks BMI2_OIS_CONFIG_ADDR (by decide)).2.1.2.2⟩

/-! ## The operations -/

/-- A failing read callback ends `bmi2_set_ois_config`: its status -5 is returned and
the write callback is never invoked (the bus has seen one invocation). -/
theorem set_config_read_failure_example :
    (bmi2_set_ois_config (some (sample_dev [0x3F] (-5) 0)) 0).rslt = -5 ∧
    (bmi2_set_ois_config (some (sample_dev [0x3F] (-5) 0)) 0).bus = 1 ∧
    (bmi2_set_ois_config (some (logged (sample_dev [0x3F] (-5) 0))) (0, [])).bus.2 = [-5] := by
  decide

/-- A failing write callback after a successful read: its status -7 is returned. -/
theorem set_config_write_failure_example :
    (bmi2_set_ois_config (some (sample_dev [0x3F] 0 (-7))) 0).rslt = -7 ∧
    (bmi2_set_ois_config (some (sample_dev [0x3F] 0 (-7))) 0).bus = 2 ∧
    (bmi2_set_ois_config (some (logged (sample_dev [0x3F] 0 (-7)))) (0, [])).bus.2
      = [0, -7] := by
  decide

/-- A callback status that is neither zero nor negative is handed on as it is. -/
theorem get_regs_positive_status_example :
    (bmi2_get_ois_regs 0x40 1 (some (sample_dev [0x3F] 5 0)) 0).rslt = 5 := by
  decide

/-- An unknown sensor selector gives the invalid-sensor code without any callback. -/
theorem read_ois_data_invalid_sensor_example :
    (bmi2_read_ois_data (fun _ d => d) [3] 1 (some (sample_dev [] 0 0)) 0 0).rslt
      = BMI2_OIS_E_INVALID_SENSOR ∧
    (bmi2_read_ois_data (fun _ d => d) [3] 1 (some (sample_dev [] 0 0)) 0 0).bus = 0 := by
  decide

/-- Three successful block reads are three logged invocations; a failing first read ends
`bmi2_read_ois_data` after that one invocation, with its status. -/
theorem read_ois_data_failure_example :
    (bmi2_read_ois_data (fun _ d => d) [BMI2_OIS_ACCEL, BMI2_OIS_GYRO, BMI2_OIS_ACCEL] 3
        (some (logged (sample_dev [1, 2, 3, 4, 5, 6] 0 0))) 0 (0, [])).bus.2 = [0, 0, 0] ∧
    (bmi2_read_ois_data (fun _ d => d) [BMI2_OIS_ACCEL, BMI2_OIS_GYRO] 2
        (some (logged (sample_dev [] (-2) 0))) 0 (0, [])).bus.2 = [-2] ∧
    (bmi2_read_ois_data (fun _ d => d) [BMI2_OIS_ACCEL, BMI2_OIS_GYRO] 2
        (some (logged (sample_dev [] (-2) 0))) 0 (0, [])).rslt = -2 := by
  decide

/-! ## Sample assembly -/

theorem int16_t_pattern (n : Int) (h0 : 0 ≤ n) (h1 : n ≤ 65535) :
    -32768 ≤ int16_t n ∧ int16_t n ≤ 32767 ∧ int16_t n % 65536 = n := by
  unfold int16_t
  omega

/-- The value assembled from a byte pair is the signed 16-bit integer whose
two's-complement pattern is `msb * 256 + lsb`. -/
theorem lsb_msb_to_int16_pattern (lsb msb : Nat) (hl : lsb ≤ 255) (hm : msb ≤ 255) :
    -32768 ≤ lsb_msb_to_int16 lsb msb ∧ lsb_msb_to_int16 lsb msb ≤ 32767 ∧
    lsb_msb_to_int16 lsb msb % 65536 = (msb : Int) * 256 + (lsb : Int) := by
  have h0 : (0 : Int) ≤ (msb : Int) * 256 + (lsb : Int) := by omega
  have h1 : (msb : Int) * 256 + (lsb : Int) ≤ 65535 := by omega
  exact int16_t_pattern _ h0 h1

/-- The assembly on concrete byte pairs. -/
theorem lsb_msb_to_int16_examples :
    lsb_msb_to_int16 0x34 0x12 = 0x1234 ∧ lsb_msb_to_int16 0xFF 0xFF = -1 ∧
    lsb_msb_to_int16 0x00 0x80 = -32768 ∧ lsb_msb_to_int16 0xFF 0x7F = 32767 := by
  decide

/-- An accelerometer request on a device answering with six bytes stores the triplet
assembled from the three byte pairs, in register order. -/
theorem read_ois_data_accel_example :
    (bmi2_read_ois_data (fun _ d => d) [BMI2_OIS_ACCEL] 1
        (some (sample_dev [0x34, 0x12, 0xFF, 0xFF, 0x00, 0x80] 0 0)) 0 0).out.map
        (fun d => d.acc_data)
      = some ⟨0x1234, -1, -32768⟩ := by
  decide

end BMI2OIS
